import Mathlib

/-!
# Bitmap header reader (`01_bitmap_reader/Bitmap.h`)

A shallow embedding of the `Bitmap` class: the two packed header structs, the
constructor that reads them from a binary `ifstream` and validates them, and
the two printing members.

Modelling conventions
* A byte is a `Fin 256`.  The file system is a map from paths to file contents;
  a path that maps to `none` cannot be opened.
* `#pragma pack(push, r1, 1)` makes the object representation of the two
  structs exactly 14 and 40 bytes, fields at consecutive offsets.  The host is
  little-endian (the source says so at `BITMAP_TYPE_BM`), so a field's value is
  the little-endian reading of its bytes; `int32_t` is two's complement.
* The constructor does not initialise `file_header` and `info_header` before
  `read` writes into them, so their prior bytes are a parameter (`RawBitmap`).
  `istream::read` stores the bytes it could extract and leaves the rest of the
  buffer as it was.
* A thrown `std::runtime_error` is an `Except.error` carrying the `what()`
  message.  The diagnostic lines written to `cerr` are not modelled.
-/

namespace BitmapReader

/-! ## Bytes and integer decoding -/

abbrev Byte := Fin 256

/-- Value of a `uint16_t` whose object representation is `b0 b1` (little-endian host). -/
def le16 (b0 b1 : Byte) : Nat :=
  b0.val + 256 * b1.val

/-- Value of a `uint32_t` whose object representation is `b0 b1 b2 b3` (little-endian host). -/
def le32 (b0 b1 b2 b3 : Byte) : Nat :=
  b0.val + 256 * b1.val + 65536 * b2.val + 16777216 * b3.val

/-- Value of an `int32_t` with the given 32-bit pattern: the low 31 bits count
positively, the top bit has weight `-2^31`. -/
def int32_of_bits (u : Nat) : Int :=
  (u % 2147483648 : Nat) - 2147483648 * ((u / 2147483648 % 2 : Nat) : Int)

/-! ## The packed structs -/

/-- The `sizeof(BITMAP_FILE_HEADER)` under `pack(1)`: the sum of the field widths. -/
def sizeof_BITMAP_FILE_HEADER : Nat := 2 + 4 + 2 + 2 + 4

/-- The `sizeof(BITMAP_INFO_HEADER)` under `pack(1)`: the sum of the field widths. -/
def sizeof_BITMAP_INFO_HEADER : Nat := 4 + 4 + 4 + 2 + 2 + 4 + 4 + 4 + 4 + 4 + 4

structure BitmapFileHeader where
  file_type : Nat
  file_size : Nat
  reserved1 : Nat
  reserved2 : Nat
  data_address : Nat
deriving DecidableEq, Repr

structure BitmapInfoHeader where
  header_size : Nat
  width : Int
  height : Int
  color_planes_count : Nat
  color_depth : Nat
  compression_method : Nat
  image_size : Nat
  horizontal_resolution : Nat
  vertical_resolution : Nat
  palette_color_count : Nat
  important_color_count : Nat
deriving DecidableEq, Repr

/-- The field values of a `BitmapFileHeader` whose 14 bytes of storage are `m`. -/
def BitmapFileHeader.ofStorage (m : Fin 14 → Byte) : BitmapFileHeader where
  file_type := le16 (m 0) (m 1)
  file_size := le32 (m 2) (m 3) (m 4) (m 5)
  reserved1 := le16 (m 6) (m 7)
  reserved2 := le16 (m 8) (m 9)
  data_address := le32 (m 10) (m 11) (m 12) (m 13)

/-- The field values of a `BitmapInfoHeader` whose 40 bytes of storage are `m`. -/
def BitmapInfoHeader.ofStorage (m : Fin 40 → Byte) : BitmapInfoHeader where
  header_size := le32 (m 0) (m 1) (m 2) (m 3)
  width := int32_of_bits (le32 (m 4) (m 5) (m 6) (m 7))
  height := int32_of_bits (le32 (m 8) (m 9) (m 10) (m 11))
  color_planes_count := le16 (m 12) (m 13)
  color_depth := le16 (m 14) (m 15)
  compression_method := le32 (m 16) (m 17) (m 18) (m 19)
  image_size := le32 (m 20) (m 21) (m 22) (m 23)
  horizontal_resolution := le32 (m 24) (m 25) (m 26) (m 27)
  vertical_resolution := le32 (m 28) (m 29) (m 30) (m 31)
  palette_color_count := le32 (m 32) (m 33) (m 34) (m 35)
  important_color_count := le32 (m 36) (m 37) (m 38) (m 39)

/-! ## The input stream -/

abbrev FileSystem := String → Option (List Byte)

/-- An `std::ifstream`: the bytes not yet extracted, and whether the stream is
still `good()` (no `failbit`/`eofbit` set). -/
structure ifstream where
  data : List Byte
  good : Bool

/-- The constructor `ifstream bmp(path, fstream::binary)`: a stream over the file's
bytes, or a failed stream when the file cannot be opened. -/
def ifstream.open (fs : FileSystem) (path : String) : ifstream :=
  match fs path with
  | some bytes => { data := bytes, good := true }
  | none => { data := [], good := false }

/-- The call `bmp.read((char*)&buf, n)`: on a stream that is not good nothing is
extracted; otherwise up to `n` bytes are extracted and stored at the start of
`buf`, the other bytes of `buf` keep their value, and the stream stays good only
if all `n` bytes were there. -/
def ifstream.read (s : ifstream) {n : Nat} (buf : Fin n → Byte) : ifstream × (Fin n → Byte) :=
  if s.good then
    let got := s.data.take n
    ({ data := s.data.drop n, good := got.length == n },
     fun i => if h : i.val < got.length then got[i.val] else buf i)
  else
    (s, buf)

/-! ## The `Bitmap` class -/

/-- The exception `std::runtime_error`, with its `what()` message. -/
structure runtime_error where
  what : String
deriving DecidableEq, Repr

structure Bitmap where
  file_header : BitmapFileHeader
  info_header : BitmapInfoHeader
deriving DecidableEq, Repr

/-- Storage of a `Bitmap` object before its constructor body runs: the bytes of
the two members, which no initialiser has written. -/
structure RawBitmap where
  file_header : Fin 14 → Byte
  info_header : Fin 40 → Byte

deriving instance DecidableEq for Except

def Bitmap.BITMAP_TYPE_BM : Nat := 0x4d42

def Bitmap.validate_file_header (file_header : BitmapFileHeader) : Except runtime_error Unit :=
  if file_header.file_type ≠ Bitmap.BITMAP_TYPE_BM then
    .error ⟨"The file does not have a type BM."⟩
  else
    .ok ()

def Bitmap.validate_info_header (info_header : BitmapInfoHeader) : Except runtime_error Unit :=
  if info_header.compression_method ≠ 0 then
    .error ⟨"A compressed bitmap was encountered."⟩
  else
    .ok ()

/-- The constructor `Bitmap::Bitmap(const char* bitmap_file_path)`, run on an object
whose storage holds `self`. -/
def Bitmap.ctor (fs : FileSystem) (bitmap_file_path : String) (self : RawBitmap) :
    Except runtime_error Bitmap :=
  let bmp := ifstream.open fs bitmap_file_path
  if !bmp.good then
    .error ⟨"The file could not be opened."⟩
  else
    let (bmp, fh) := bmp.read self.file_header
    let file_header := BitmapFileHeader.ofStorage fh
    match Bitmap.validate_file_header file_header with
    | .error e => .error e
    | .ok () =>
      let (_, ih) := bmp.read self.info_header
      let info_header := BitmapInfoHeader.ofStorage ih
      match Bitmap.validate_info_header info_header with
      | .error e => .error e
      | .ok () => .ok { file_header := file_header, info_header := info_header }

/-! ## The output stream and the printing members -/

/-- The `basefield` format flag of a stream, as `std::dec` and `std::hex` set it. -/
inductive basefield where
  | dec
  | hex
deriving DecidableEq, Repr

/-- An `std::ostream` such as `cout`: the text written so far and the `basefield` flag.
The code never sets a field width, a fill character, `showbase` or `uppercase`, so these
keep their defaults (width 0, no base prefix, lowercase digits). -/
structure ostream where
  text : String
  base : basefield
deriving DecidableEq, Repr

/-- The stream `cout` at program start: nothing written, decimal. -/
def ostream.initial : ostream := { text := "", base := .dec }

/-- The insertion `os << "literal"`. -/
def ostream.put_string (os : ostream) (s : String) : ostream :=
  { os with text := os.text ++ s }

/-- The insertion `os << std::hex`. -/
def ostream.hex (os : ostream) : ostream := { os with base := .hex }

/-- The insertion `os << std::dec`. -/
def ostream.dec (os : ostream) : ostream := { os with base := .dec }

/-- The insertion `os << endl`: a newline (the flush is not modelled). -/
def ostream.endl (os : ostream) : ostream := os.put_string "\n"

/-- The insertion `os << v` for a `uint16_t` or `uint32_t`: the digits of `v` in the current
base, as few as the value needs. -/
def ostream.put_unsigned (os : ostream) (v : Nat) : ostream :=
  match os.base with
  | .dec => os.put_string (String.mk (Nat.toDigits 10 v))
  | .hex => os.put_string (String.mk (Nat.toDigits 16 v))

/-- The insertion `os << v` for an `int32_t`: in decimal a minus sign for a negative value and
the digits of its magnitude; in hexadecimal the digits of its 32-bit pattern. -/
def ostream.put_int32 (os : ostream) (v : Int) : ostream :=
  match os.base with
  | .dec =>
    if v < 0 then os.put_string ("-" ++ String.mk (Nat.toDigits 10 v.natAbs))
    else os.put_string (String.mk (Nat.toDigits 10 v.natAbs))
  | .hex => os.put_string (String.mk (Nat.toDigits 16 (v % 4294967296).toNat))

/-- The member `Bitmap::print_file_header`, writing to `cout`. -/
def Bitmap.print_file_header (self : Bitmap) (cout : ostream) : ostream :=
  let cout := ((((cout.put_string "File Type: ").hex.put_string "0x").put_unsigned
    self.file_header.file_type).dec).endl
  let cout := ((cout.put_string "File Size: ").put_unsigned self.file_header.file_size).endl
  let cout := ((((cout.put_string "Data Addr: ").hex.put_string "0x").put_unsigned
    self.file_header.data_address).dec).endl
  cout

/-- The member `Bitmap::print_info_header`, writing to `cout`. -/
def Bitmap.print_info_header (self : Bitmap) (cout : ostream) : ostream :=
  let cout := ((cout.put_string "Header size:           ").put_unsigned
    self.info_header.header_size).endl
  let cout := ((cout.put_string "Width:                 ").put_int32
    self.info_header.width).endl
  let cout := ((cout.put_string "Height:                ").put_int32
    self.info_header.height).endl
  let cout := ((cout.put_string "Color planes:          ").put_unsigned
    self.info_header.color_planes_count).endl
  let cout := ((cout.put_string "Color depth:           ").put_unsigned
    self.info_header.color_depth).endl
  let cout := ((cout.put_string "Compression method:    ").put_unsigned
    self.info_header.compression_method).endl
  let cout := ((cout.put_string "Image size:            ").put_unsigned
    self.info_header.image_size).endl
  let cout := ((cout.put_string "Horizontal resolution: ").put_unsigned
    self.info_header.horizontal_resolution).endl
  let cout := ((cout.put_string "Vertical resolution:   ").put_unsigned
    self.info_header.vertical_resolution).endl
  let cout := ((cout.put_string "Palette colors:        ").put_unsigned
    self.info_header.palette_color_count).endl
  let cout := ((cout.put_string "Important colors:      ").put_unsigned
    self.info_header.important_color_count).endl
  cout

/-! ## Specification-side vocabulary

The layout table of the format, stated independently of the structs: a field is
the little-endian value of `size` consecutive bytes at an offset of the file. -/

/-- The little-endian value of a byte sequence: the first byte is the least significant. -/
def leValue (bs : List Byte) : Nat :=
  bs.foldr (fun b acc => b.val + 256 * acc) 0

/-- The unsigned little-endian integer encoded by bytes `off .. off + size - 1` of `bytes`. -/
def fieldAt (bytes : List Byte) (off size : Nat) : Nat :=
  leValue ((bytes.drop off).take size)

/-- Two's-complement reading of an unsigned 32-bit value `u`. -/
def twosComplement32 (u : Nat) : Int :=
  if u < 2 ^ 31 then (u : Int) else (u : Int) - 2 ^ 32

/-- The file header that the layout table assigns to a byte sequence. -/
def tableFileHeader (bytes : List Byte) : BitmapFileHeader where
  file_type := fieldAt bytes 0 2
  file_size := fieldAt bytes 2 4
  reserved1 := fieldAt bytes 6 2
  reserved2 := fieldAt bytes 8 2
  data_address := fieldAt bytes 10 4

/-- The info header that the layout table assigns to a byte sequence. -/
def tableInfoHeader (bytes : List Byte) : BitmapInfoHeader where
  header_size := fieldAt bytes 14 4
  width := twosComplement32 (fieldAt bytes 18 4)
  height := twosComplement32 (fieldAt bytes 22 4)
  color_planes_count := fieldAt bytes 26 2
  color_depth := fieldAt bytes 28 2
  compression_method := fieldAt bytes 30 4
  image_size := fieldAt bytes 34 4
  horizontal_resolution := fieldAt bytes 38 4
  vertical_resolution := fieldAt bytes 42 4
  palette_color_count := fieldAt bytes 46 4
  important_color_count := fieldAt bytes 50 4

/-- Storage `buf` after the bytes of the file from offset `off` on have been stored
over its start: a byte the file has replaces the old one, the others stay. -/
def filled (bytes : List Byte) (off : Nat) {n : Nat} (buf : Fin n → Byte) : Fin n → Byte :=
  fun i => if off + i.val < bytes.length then bytes.getD (off + i.val) 0 else buf i

/-- The three failures the constructor can throw. -/
def SourceUnavailable : runtime_error := ⟨"The file could not be opened."⟩

def UnsupportedFormat : runtime_error := ⟨"The file does not have a type BM."⟩

def UnsupportedCompression : runtime_error := ⟨"A compressed bitmap was encountered."⟩

/-! ## Concrete inputs -/

/-- A file system in which every path opens the same file. -/
def onlyFile (bytes : List Byte) : FileSystem := fun _ => some bytes

/-- A file system in which no path can be opened. -/
def noFile : FileSystem := fun _ => none

/-- Object storage whose bytes are all zero. -/
def zeroStorage : RawBitmap where
  file_header := fun _ => 0
  info_header := fun _ => 0

/-- Object storage that still holds the bytes `42 4D` at the place of `file_type`
(as left by an earlier `Bitmap` in the same place), zero elsewhere. -/
def staleStorage : RawBitmap where
  file_header := fun i => if i.val = 0 then 0x42 else if i.val = 1 then 0x4D else 0
  info_header := fun _ => 0

/-- Object storage whose bytes are all `FF`. -/
def onesStorage : RawBitmap where
  file_header := fun _ => 0xFF
  info_header := fun _ => 0xFF

/-- The 14 bytes `42 4D 36 00 00 00 00 00 00 00 36 00 00 00`. -/
def sampleFileHeader : List Byte :=
  [0x42, 0x4D, 0x36, 0x00, 0x00, 0x00, 0x00, 0x00, 0x00, 0x00, 0x36, 0x00, 0x00, 0x00]

/-- A 54-byte header: `sampleFileHeader`, then header size 40, width `80 00 00 00`,
height `FF FF FF FF`, one plane, 24 bits per pixel, no compression, zeros after. -/
def sample54 : List Byte :=
  sampleFileHeader ++
  [0x28, 0x00, 0x00, 0x00, 0x80, 0x00, 0x00, 0x00, 0xFF, 0xFF, 0xFF, 0xFF,
   0x01, 0x00, 0x18, 0x00, 0x00, 0x00, 0x00, 0x00,
   0x00, 0x00, 0x00, 0x00, 0x00, 0x00, 0x00, 0x00, 0x00, 0x00, 0x00, 0x00,
   0x00, 0x00, 0x00, 0x00, 0x00, 0x00, 0x00, 0x00]

/-- A 54-byte sequence starting `4D 42` (the signature bytes swapped) whose
compression field is `01 00 00 00`. -/
def wrongSignature54 : List Byte :=
  [0x4D, 0x42] ++ List.replicate 28 0x00 ++ [0x01, 0x00, 0x00, 0x00] ++ List.replicate 20 0x00

/-- A 54-byte sequence starting with `sampleFileHeader` whose compression field is
`00 00 00 01`: nonzero in its last byte only. -/
def compressed54 : List Byte :=
  sampleFileHeader ++ List.replicate 16 0x00 ++ [0x00, 0x00, 0x00, 0x01] ++ List.replicate 20 0x00

/-- The first 34 bytes of `sample54`: the file header and the info header up to and
including the compression field; the last 20 header bytes are missing. -/
def truncated34 : List Byte := sample54.take 34

/-- The first 40 bytes of `sample54`: the input ends in the middle of the
`horizontal_resolution` field. -/
def truncated40 : List Byte := sample54.take 40

/-- The first 34 bytes of a header whose compression field is `01 00 00 00`. -/
def truncatedCompressed34 : List Byte :=
  sampleFileHeader ++ List.replicate 16 0x00 ++ [0x01, 0x00, 0x00, 0x00]

/-- The 54-byte header that starts with `truncatedCompressed34` and continues with zeros. -/
def compressedLow54 : List Byte := truncatedCompressed34 ++ List.replicate 20 0x00

/-! ## The program and repeated member calls -/

/-- The constant `INPUT_BMP_FILE` of `main.cpp`. -/
def INPUT_BMP_FILE : String := "../assets/sample.bmp"

/-- The function `main`: construct a `Bitmap` from `INPUT_BMP_FILE`, print the file header,
then the info header, on `cout` as it is at program start.  An exception that escapes is
the `error` result; otherwise the result is `cout` at `return 0`. -/
def main (fs : FileSystem) (self : RawBitmap) : Except runtime_error ostream :=
  match Bitmap.ctor fs INPUT_BMP_FILE self with
  | .error e => .error e
  | .ok bmp =>
    let cout := bmp.print_file_header ostream.initial
    let cout := bmp.print_info_header cout
    .ok cout

/-- The two printing members, as the calls a caller can make on a constructed `Bitmap`. -/
inductive Method where
  | print_file_header
  | print_info_header
deriving DecidableEq, Repr

/-- One member call on the program state, which is the object and `cout`: the body of the
member writes to `cout` and assigns to no member of the object. -/
def Bitmap.call (m : Method) (state : Bitmap × ostream) : Bitmap × ostream :=
  match m with
  | .print_file_header => (state.1, state.1.print_file_header state.2)
  | .print_info_header => (state.1, state.1.print_info_header state.2)

/-- A sequence of member calls, made one after the other. -/
def Bitmap.calls (ms : List Method) (state : Bitmap × ostream) : Bitmap × ostream :=
  ms.foldl (fun st m => Bitmap.call m st) state

/-! ## Specification-side vocabulary for the report and for writing a header back -/

/-- The digits of `v` in lowercase hexadecimal, as few as the value needs. -/
def hexText (v : Nat) : String := String.mk (Nat.toDigits 16 v)

/-- The lines of the report, without their newline: the label the code prints and the value,
`file_type` and `data_address` in hexadecimal after `0x`, the others in plain decimal. -/
def reportLines (b : Bitmap) : List String :=
  [ "File Type: 0x" ++ hexText b.file_header.file_type,
    "File Size: " ++ toString b.file_header.file_size,
    "Data Addr: 0x" ++ hexText b.file_header.data_address,
    "Header size:           " ++ toString b.info_header.header_size,
    "Width:                 " ++ toString b.info_header.width,
    "Height:                " ++ toString b.info_header.height,
    "Color planes:          " ++ toString b.info_header.color_planes_count,
    "Color depth:           " ++ toString b.info_header.color_depth,
    "Compression method:    " ++ toString b.info_header.compression_method,
    "Image size:            " ++ toString b.info_header.image_size,
    "Horizontal resolution: " ++ toString b.info_header.horizontal_resolution,
    "Vertical resolution:   " ++ toString b.info_header.vertical_resolution,
    "Palette colors:        " ++ toString b.info_header.palette_color_count,
    "Important colors:      " ++ toString b.info_header.important_color_count ]

/-- A text made of the given lines, each followed by a newline. -/
def unlines (ls : List String) : String :=
  ls.foldr (fun l acc => l ++ "\n" ++ acc) ""

/-- The texts of a list, one after the other. -/
def concatText (ts : List String) : String :=
  ts.foldr (fun t acc => t ++ acc) ""

/-- The `size` bytes that encode `v` as a little-endian unsigned integer. -/
def leBytes : Nat → Nat → List Byte
  | 0, _ => []
  | size + 1, v => ⟨v % 256, Nat.mod_lt v (by decide)⟩ :: leBytes size (v / 256)

/-- The unsigned 32-bit pattern of a signed value in two's complement. -/
def toUnsigned32 (i : Int) : Nat := (i % 4294967296).toNat

/-- The file header written back: its fields in table order, widths 2, 4, 2, 2, 4. -/
def writeFileHeader (h : BitmapFileHeader) : List Byte :=
  leBytes 2 h.file_type ++ leBytes 4 h.file_size ++ leBytes 2 h.reserved1 ++
  leBytes 2 h.reserved2 ++ leBytes 4 h.data_address

/-- The info header written back: its fields in table order, widths
4, 4, 4, 2, 2, 4, 4, 4, 4, 4, 4, with `width` and `height` in two's complement. -/
def writeInfoHeader (h : BitmapInfoHeader) : List Byte :=
  leBytes 4 h.header_size ++ leBytes 4 (toUnsigned32 h.width) ++
  leBytes 4 (toUnsigned32 h.height) ++ leBytes 2 h.color_planes_count ++
  leBytes 2 h.color_depth ++ leBytes 4 h.compression_method ++ leBytes 4 h.image_size ++
  leBytes 4 h.horizontal_resolution ++ leBytes 4 h.vertical_resolution ++
  leBytes 4 h.palette_color_count ++ leBytes 4 h.important_color_count

/-- Both records written back, the file header first. -/
def writeHeaders (b : Bitmap) : List Byte :=
  writeFileHeader b.file_header ++ writeInfoHeader b.info_header

/-- The 54-byte sample header with `reserved1 = 0x1234` and `reserved2 = 0x5678`. -/
def reserved54 : List Byte :=
  sample54.take 6 ++ [0x34, 0x12, 0x78, 0x56] ++ sample54.drop 10

/-! ## Integer decoding lemmas -/

theorem le16_lt (b0 b1 : Byte) : le16 b0 b1 < 65536 := by
  unfold le16; omega

theorem le32_lt (b0 b1 b2 b3 : Byte) : le32 b0 b1 b2 b3 < 4294967296 := by
  unfold le32; omega

theorem le16_eq_BM (b0 b1 : Byte) : le16 b0 b1 = 0x4d42 ↔ b0 = 0x42 ∧ b1 = 0x4D := by
  unfold le16
  constructor
  · intro h
    have h0 := b0.isLt
    have h1 := b1.isLt
    exact ⟨Fin.ext (show b0.val = 66 by omega), Fin.ext (show b1.val = 77 by omega)⟩
  · rintro ⟨rfl, rfl⟩; rfl

theorem le32_eq_zero (b0 b1 b2 b3 : Byte) :
    le32 b0 b1 b2 b3 = 0 ↔ b0 = 0 ∧ b1 = 0 ∧ b2 = 0 ∧ b3 = 0 := by
  unfold le32
  constructor
  · intro h
    have h0 := b0.isLt
    have h1 := b1.isLt
    have h2 := b2.isLt
    have h3 := b3.isLt
    exact ⟨Fin.ext (show b0.val = 0 by omega), Fin.ext (show b1.val = 0 by omega),
      Fin.ext (show b2.val = 0 by omega), Fin.ext (show b3.val = 0 by omega)⟩
  · rintro ⟨rfl, rfl, rfl, rfl⟩; rfl

theorem int32_of_bits_eq (u : Nat) (hu : u < 4294967296) :
    int32_of_bits u = twosComplement32 u := by
  unfold int32_of_bits twosComplement32
  split <;> omega

theorem getD_of_lt (l : List Byte) (i : Nat) (h : i < l.length) : l.getD i 0 = l[i] := by
  simp [List.getD_eq_getElem?_getD, List.getElem?_eq_getElem, h]

theorem drop_take_two (l : List Byte) (off : Nat) (h : off + 2 ≤ l.length) :
    (l.drop off).take 2 = [l.getD off 0, l.getD (off + 1) 0] := by
  rw [getD_of_lt l off (by omega), getD_of_lt l (off + 1) (by omega),
    List.drop_eq_getElem_cons (by omega : off < l.length),
    List.drop_eq_getElem_cons (by omega : off + 1 < l.length)]
  rfl

theorem drop_take_four (l : List Byte) (off : Nat) (h : off + 4 ≤ l.length) :
    (l.drop off).take 4 =
      [l.getD off 0, l.getD (off + 1) 0, l.getD (off + 2) 0, l.getD (off + 3) 0] := by
  rw [getD_of_lt l off (by omega), getD_of_lt l (off + 1) (by omega),
    getD_of_lt l (off + 2) (by omega), getD_of_lt l (off + 3) (by omega),
    List.drop_eq_getElem_cons (by omega : off < l.length),
    List.drop_eq_getElem_cons (by omega : off + 1 < l.length),
    List.drop_eq_getElem_cons (by omega : off + 1 + 1 < l.length),
    List.drop_eq_getElem_cons (by omega : off + 1 + 1 + 1 < l.length)]
  rfl

theorem fieldAt_two (l : List Byte) (off : Nat) (h : off + 2 ≤ l.length) :
    fieldAt l off 2 = le16 (l.getD off 0) (l.getD (off + 1) 0) := by
  unfold fieldAt
  rw [drop_take_two l off h]
  simp [leValue, le16]

theorem fieldAt_four (l : List Byte) (off : Nat) (h : off + 4 ≤ l.length) :
    fieldAt l off 4 =
      le32 (l.getD off 0) (l.getD (off + 1) 0) (l.getD (off + 2) 0) (l.getD (off + 3) 0) := by
  unfold fieldAt
  rw [drop_take_four l off h]
  simp only [leValue, le32, List.foldr]
  omega

/-! ## The reads and the constructor -/

theorem read_good (s : ifstream) {n : Nat} (buf : Fin n → Byte) (hg : s.good = true) :
    s.read buf =
      ({ data := s.data.drop n, good := decide (n ≤ s.data.length) }, filled s.data 0 buf) := by
  unfold ifstream.read
  simp only [hg, if_true]
  refine Prod.ext ?_ ?_
  · simp only [ifstream.mk.injEq, true_and]
    by_cases h : n ≤ s.data.length <;> simp [h]
  · funext i
    simp only [filled, Nat.zero_add, List.length_take]
    have hi := i.isLt
    by_cases h : i.val < s.data.length
    · have h2 : i.val < min n s.data.length := by omega
      simp [h, h2, List.getD_eq_getElem?_getD, List.getElem?_eq_getElem]
    · have h2 : ¬ i.val < min n s.data.length := by omega
      simp [h, h2]

theorem read_not_good (s : ifstream) {n : Nat} (buf : Fin n → Byte) (hg : s.good = false) :
    s.read buf = (s, buf) := by
  unfold ifstream.read
  simp [hg]

/-- What the constructor computes on a file that opens: the two checks, in order, on
the storage as the two reads leave it. -/
theorem ctor_of_open (fs : FileSystem) (path : String) (self : RawBitmap) (bytes : List Byte)
    (h : fs path = some bytes) :
    Bitmap.ctor fs path self =
      if (BitmapFileHeader.ofStorage (filled bytes 0 self.file_header)).file_type
          ≠ Bitmap.BITMAP_TYPE_BM then
        .error UnsupportedFormat
      else if (BitmapInfoHeader.ofStorage (filled bytes 14 self.info_header)).compression_method
          ≠ 0 then
        .error UnsupportedCompression
      else
        .ok { file_header := BitmapFileHeader.ofStorage (filled bytes 0 self.file_header),
              info_header := BitmapInfoHeader.ofStorage (filled bytes 14 self.info_header) } := by
  have hsnd : (ifstream.read { data := bytes.drop 14, good := decide (14 ≤ bytes.length) }
      self.info_header).2 = filled bytes 14 self.info_header := by
    by_cases hl : 14 ≤ bytes.length
    · rw [read_good _ _ (by simp [hl])]
      funext i
      simp only [filled, List.length_drop, Nat.zero_add]
      by_cases h2 : 14 + i.val < bytes.length
      · have h3 : i.val < bytes.length - 14 := by omega
        simp [h2, h3, List.getD_eq_getElem?_getD]
      · have h3 : ¬ i.val < bytes.length - 14 := by omega
        simp [h2, h3]
    · rw [read_not_good _ _ (by simp [hl])]
      funext i
      have h2 : ¬ 14 + i.val < bytes.length := by omega
      simp [filled, h2]
  unfold Bitmap.ctor ifstream.open UnsupportedFormat UnsupportedCompression
  simp only [h]
  rw [read_good _ _ rfl]
  simp only [Bool.not_true, Bool.false_eq_true, if_false, Bitmap.validate_file_header,
    Bitmap.validate_info_header]
  by_cases hft : (BitmapFileHeader.ofStorage (filled bytes 0 self.file_header)).file_type
      = Bitmap.BITMAP_TYPE_BM
  · simp only [hft, ne_eq, not_true_eq_false, if_false]
    rw [hsnd]
    by_cases hc : (BitmapInfoHeader.ofStorage
        (filled bytes 14 self.info_header)).compression_method = 0
    · simp [hc, hft]
    · simp [hc]
  · simp [hft]

theorem filled_of_lt (bytes : List Byte) (off : Nat) {n : Nat} (buf : Fin n → Byte) (i : Fin n)
    (h : off + i.val < bytes.length) : filled bytes off buf i = bytes.getD (off + i.val) 0 := by
  simp [filled, h]

theorem filled_of_full (bytes : List Byte) (off : Nat) {n : Nat} (buf : Fin n → Byte)
    (h : off + n ≤ bytes.length) : filled bytes off buf = fun i => bytes.getD (off + i.val) 0 := by
  funext i
  exact filled_of_lt bytes off buf i (by have := i.isLt; omega)

/-- When the file has the 14 bytes, the file header read is the one of the layout table. -/
theorem fileHeader_of_full (bytes : List Byte) (buf : Fin 14 → Byte) (h : 14 ≤ bytes.length) :
    BitmapFileHeader.ofStorage (filled bytes 0 buf) = tableFileHeader bytes := by
  simp only [BitmapFileHeader.ofStorage, tableFileHeader]
  rw [fieldAt_two bytes 0 (by omega), fieldAt_four bytes 2 (by omega),
    fieldAt_two bytes 6 (by omega), fieldAt_two bytes 8 (by omega),
    fieldAt_four bytes 10 (by omega)]
  rw [filled_of_full _ _ _ (by omega)]
  rfl

/-- When the file has all 54 bytes, the info header read is the one of the layout table. -/
theorem infoHeader_of_full (bytes : List Byte) (buf : Fin 40 → Byte) (h : 54 ≤ bytes.length) :
    BitmapInfoHeader.ofStorage (filled bytes 14 buf) = tableInfoHeader bytes := by
  simp only [BitmapInfoHeader.ofStorage, tableInfoHeader]
  rw [fieldAt_four bytes 14 (by omega), fieldAt_four bytes 18 (by omega),
    fieldAt_four bytes 22 (by omega), fieldAt_two bytes 26 (by omega),
    fieldAt_two bytes 28 (by omega), fieldAt_four bytes 30 (by omega),
    fieldAt_four bytes 34 (by omega), fieldAt_four bytes 38 (by omega),
    fieldAt_four bytes 42 (by omega), fieldAt_four bytes 46 (by omega),
    fieldAt_four bytes 50 (by omega)]
  rw [int32_of_bits_eq _ (le32_lt _ _ _ _), int32_of_bits_eq _ (le32_lt _ _ _ _)]
  rw [filled_of_full _ _ _ (by omega)]
  rfl

/-- The constructor on a file of at least 54 bytes: the two checks on the table's
records, and the table's records on success. -/
theorem ctor_of_full (fs : FileSystem) (path : String) (self : RawBitmap) (bytes : List Byte)
    (h : fs path = some bytes) (hlen : 54 ≤ bytes.length) :
    Bitmap.ctor fs path self =
      if fieldAt bytes 0 2 ≠ 0x4d42 then .error UnsupportedFormat
      else if fieldAt bytes 30 4 ≠ 0 then .error UnsupportedCompression
      else .ok { file_header := tableFileHeader bytes, info_header := tableInfoHeader bytes } := by
  rw [ctor_of_open fs path self bytes h, fileHeader_of_full bytes _ (by omega),
    infoHeader_of_full bytes _ hlen]
  rfl

/-- A field inside the first `k` bytes is a field of those `k` bytes alone. -/
theorem fieldAt_take (bytes : List Byte) (k off size : Nat) (h : off + size ≤ k) :
    fieldAt (bytes.take k) off size = fieldAt bytes off size := by
  unfold fieldAt
  rw [List.drop_take, List.take_take, Nat.min_eq_left (by omega)]

theorem tableFileHeader_take (bytes : List Byte) (k : Nat) (h : 14 ≤ k) :
    tableFileHeader (bytes.take k) = tableFileHeader bytes := by
  simp only [tableFileHeader]
  rw [fieldAt_take bytes k 0 2 (by omega), fieldAt_take bytes k 2 4 (by omega),
    fieldAt_take bytes k 6 2 (by omega), fieldAt_take bytes k 8 2 (by omega),
    fieldAt_take bytes k 10 4 (by omega)]

theorem tableInfoHeader_take (bytes : List Byte) (k : Nat) (h : 54 ≤ k) :
    tableInfoHeader (bytes.take k) = tableInfoHeader bytes := by
  simp only [tableInfoHeader]
  rw [fieldAt_take bytes k 14 4 (by omega), fieldAt_take bytes k 18 4 (by omega),
    fieldAt_take bytes k 22 4 (by omega), fieldAt_take bytes k 26 2 (by omega),
    fieldAt_take bytes k 28 2 (by omega), fieldAt_take bytes k 30 4 (by omega),
    fieldAt_take bytes k 34 4 (by omega), fieldAt_take bytes k 38 4 (by omega),
    fieldAt_take bytes k 42 4 (by omega), fieldAt_take bytes k 46 4 (by omega),
    fieldAt_take bytes k 50 4 (by omega)]

theorem file_type_of_take (bytes : List Byte) (h : bytes.take 2 = [0x42, 0x4D]) :
    fieldAt bytes 0 2 = 0x4d42 := by
  unfold fieldAt
  rw [List.drop_zero, h]
  rfl

theorem compression_of_take (bytes : List Byte) (h : (bytes.drop 30).take 4 = [0, 0, 0, 0]) :
    fieldAt bytes 30 4 = 0 := by
  unfold fieldAt
  rw [h]
  rfl

/-- C1. Every byte sequence of at least 54 bytes that starts `42 4D` and has bytes 30..33
all zero constructs a `Bitmap`, whatever the other bytes and whatever the object's storage
held before, and each stored field is the little-endian integer at its offset of the layout
table (two's complement for `width` and `height`).  When the first 14 bytes are
`42 4D 36 00 00 00 00 00 00 00 36 00 00 00` the file header is
`file_type = 0x4D42, file_size = 54, reserved1 = 0, reserved2 = 0, data_address = 54`. -/
theorem C1_valid_input_decodes (fs : FileSystem) (path : String) (self : RawBitmap)
    (bytes : List Byte) (hopen : fs path = some bytes) (hlen : 54 ≤ bytes.length)
    (hsig : bytes.take 2 = [0x42, 0x4D]) (hcomp : (bytes.drop 30).take 4 = [0, 0, 0, 0]) :
    Bitmap.ctor fs path self =
        .ok { file_header :=
                { file_type := fieldAt bytes 0 2
                  file_size := fieldAt bytes 2 4
                  reserved1 := fieldAt bytes 6 2
                  reserved2 := fieldAt bytes 8 2
                  data_address := fieldAt bytes 10 4 }
              info_header :=
                { header_size := fieldAt bytes 14 4
                  width := twosComplement32 (fieldAt bytes 18 4)
                  height := twosComplement32 (fieldAt bytes 22 4)
                  color_planes_count := fieldAt bytes 26 2
                  color_depth := fieldAt bytes 28 2
                  compression_method := fieldAt bytes 30 4
                  image_size := fieldAt bytes 34 4
                  horizontal_resolution := fieldAt bytes 38 4
                  vertical_resolution := fieldAt bytes 42 4
                  palette_color_count := fieldAt bytes 46 4
                  important_color_count := fieldAt bytes 50 4 } }
      ∧ (bytes.take 14 = sampleFileHeader →
          (Bitmap.ctor fs path self).map Bitmap.file_header =
            .ok { file_type := 0x4D42, file_size := 54, reserved1 := 0, reserved2 := 0,
                  data_address := 54 }) := by
  have hres : Bitmap.ctor fs path self =
      .ok { file_header := tableFileHeader bytes, info_header := tableInfoHeader bytes } := by
    rw [ctor_of_full fs path self bytes hopen hlen, file_type_of_take bytes hsig,
      compression_of_take bytes hcomp]
    rfl
  refine ⟨hres, ?_⟩
  intro h14
  rw [hres, ← tableFileHeader_take bytes 14 (by omega), h14]
  rfl

/-- Witness for C1: the 54-byte sample header, read into storage full of `FF`. -/
theorem C1_valid_input_decodes_witness :
    sample54.length = 54 ∧
    Bitmap.ctor (onlyFile sample54) "sample.bmp" onesStorage =
      .ok { file_header :=
              { file_type := 0x4D42, file_size := 54, reserved1 := 0, reserved2 := 0,
                data_address := 54 }
            info_header :=
              { header_size := 40, width := 128, height := -1, color_planes_count := 1,
                color_depth := 24, compression_method := 0, image_size := 0,
                horizontal_resolution := 0, vertical_resolution := 0,
                palette_color_count := 0, important_color_count := 0 } } :=
  ⟨by decide,
   (C1_valid_input_decodes (onlyFile sample54) "sample.bmp" onesStorage sample54 rfl
      (by decide) (by decide) (by decide)).1⟩

/-- C2. Every input that opens and whose first two bytes are not `42 4D` makes the
constructor throw the failure with message "The file does not have a type BM." and no other
failure, whatever its length, the rest of its content (a nonzero compression field included)
and the object's earlier storage. -/
theorem C2_wrong_signature_fails (fs : FileSystem) (path : String) (self : RawBitmap)
    (bytes : List Byte) (hopen : fs path = some bytes) (hlen : 2 ≤ bytes.length)
    (hsig : bytes.take 2 ≠ [0x42, 0x4D]) :
    Bitmap.ctor fs path self = .error UnsupportedFormat ∧
    UnsupportedFormat.what = "The file does not have a type BM." ∧
    Bitmap.ctor fs path self ≠ .error SourceUnavailable ∧
    Bitmap.ctor fs path self ≠ .error UnsupportedCompression := by
  have hres : Bitmap.ctor fs path self = .error UnsupportedFormat := by
    rw [ctor_of_open fs path self bytes hopen]
    have hft : (BitmapFileHeader.ofStorage (filled bytes 0 self.file_header)).file_type
        ≠ Bitmap.BITMAP_TYPE_BM := by
      intro h
      have h2 := (le16_eq_BM _ _).1 h
      have e0 : filled bytes 0 self.file_header 0 = bytes.getD 0 0 :=
        filled_of_lt bytes 0 self.file_header 0 (by simpa using (by omega : 0 < bytes.length))
      have e1 : filled bytes 0 self.file_header 1 = bytes.getD (0 + 1) 0 :=
        filled_of_lt bytes 0 self.file_header 1 (by simpa using (by omega : 1 < bytes.length))
      have hd := drop_take_two bytes 0 (by omega)
      rw [List.drop_zero] at hd
      apply hsig
      rw [hd, ← e0, ← e1]
      exact congrArg₂ (fun x y => [x, y]) h2.1 h2.2
    rw [if_pos hft]
  refine ⟨hres, rfl, ?_, ?_⟩
  · rw [hres]
    decide
  · rw [hres]
    decide

/-- Witness for C2: 54 bytes with the signature bytes swapped and a nonzero compression
field, and the two bytes `4D 42` alone. -/
theorem C2_wrong_signature_fails_witness :
    Bitmap.ctor (onlyFile wrongSignature54) "swapped.bmp" zeroStorage =
      .error ⟨"The file does not have a type BM."⟩ ∧
    Bitmap.ctor (onlyFile [0x4D, 0x42]) "two.bmp" staleStorage =
      .error ⟨"The file does not have a type BM."⟩ :=
  ⟨(C2_wrong_signature_fails (onlyFile wrongSignature54) "swapped.bmp" zeroStorage
      wrongSignature54 rfl (by decide) (by decide)).1,
   (C2_wrong_signature_fails (onlyFile [0x4D, 0x42]) "two.bmp" staleStorage
      [0x4D, 0x42] rfl (by decide) (by decide)).1⟩

theorem compression_ne_zero (bytes : List Byte) (hlen : 34 ≤ bytes.length)
    (hcomp : (bytes.drop 30).take 4 ≠ [0, 0, 0, 0]) : fieldAt bytes 30 4 ≠ 0 := by
  intro h
  rw [fieldAt_four bytes 30 (by omega)] at h
  obtain ⟨h0, h1, h2, h3⟩ := (le32_eq_zero _ _ _ _).1 h
  apply hcomp
  rw [drop_take_four bytes 30 (by omega), h0, h1, h2, h3]

/-- C3. Every input of at least 54 bytes that starts `42 4D` and whose compression field
(bytes 30..33) is not all zero makes the constructor throw the failure with message
"A compressed bitmap was encountered.". -/
theorem C3_compressed_fails (fs : FileSystem) (path : String) (self : RawBitmap)
    (bytes : List Byte) (hopen : fs path = some bytes) (hlen : 54 ≤ bytes.length)
    (hsig : bytes.take 2 = [0x42, 0x4D]) (hcomp : (bytes.drop 30).take 4 ≠ [0, 0, 0, 0]) :
    Bitmap.ctor fs path self = .error UnsupportedCompression ∧
    UnsupportedCompression.what = "A compressed bitmap was encountered." := by
  refine ⟨?_, rfl⟩
  rw [ctor_of_full fs path self bytes hopen hlen, file_type_of_take bytes hsig,
    if_neg (by simp), if_pos (compression_ne_zero bytes (by omega) hcomp)]

/-- Witness for C3: a compression field that is nonzero in its most significant byte only. -/
theorem C3_compressed_fails_witness :
    Bitmap.ctor (onlyFile compressed54) "rle.bmp" zeroStorage =
      .error ⟨"A compressed bitmap was encountered."⟩ :=
  (C3_compressed_fails (onlyFile compressed54) "rle.bmp" zeroStorage compressed54 rfl
    (by decide) (by decide) (by decide)).1

theorem file_type_iff (bytes : List Byte) (hlen : 2 ≤ bytes.length) :
    fieldAt bytes 0 2 = 0x4d42 ↔ bytes.take 2 = [0x42, 0x4D] := by
  have hd := drop_take_two bytes 0 (by omega)
  rw [List.drop_zero] at hd
  rw [fieldAt_two bytes 0 (by omega), le16_eq_BM, hd]
  constructor
  · rintro ⟨h0, h1⟩
    rw [h0, h1]
  · intro h
    injection h with h0 h'
    injection h' with h1 _
    exact ⟨h0, h1⟩

theorem compression_iff (bytes : List Byte) (hlen : 34 ≤ bytes.length) :
    fieldAt bytes 30 4 = 0 ↔ (bytes.drop 30).take 4 = [0, 0, 0, 0] := by
  constructor
  · intro h
    by_contra hne
    exact compression_ne_zero bytes hlen hne h
  · exact compression_of_take bytes

/-- The signature the constructor checks is read from the file as soon as it has 2 bytes. -/
theorem file_type_of_filled (bytes : List Byte) (buf : Fin 14 → Byte) (hlen : 2 ≤ bytes.length) :
    (BitmapFileHeader.ofStorage (filled bytes 0 buf)).file_type = fieldAt bytes 0 2 := by
  rw [fieldAt_two bytes 0 (by omega)]
  simp only [BitmapFileHeader.ofStorage]
  rw [filled_of_lt bytes 0 buf 0 (by simpa using (by omega : 0 < bytes.length)),
    filled_of_lt bytes 0 buf 1 (by simpa using (by omega : 1 < bytes.length))]
  rfl

/-- The compression field the constructor checks is read from the file as soon as it has
34 bytes. -/
theorem compression_of_filled (bytes : List Byte) (buf : Fin 40 → Byte)
    (hlen : 34 ≤ bytes.length) :
    (BitmapInfoHeader.ofStorage (filled bytes 14 buf)).compression_method
      = fieldAt bytes 30 4 := by
  rw [fieldAt_four bytes 30 (by omega)]
  simp only [BitmapInfoHeader.ofStorage]
  rw [filled_of_lt bytes 14 buf 16 (by show 14 + 16 < bytes.length; omega),
    filled_of_lt bytes 14 buf 17 (by show 14 + 17 < bytes.length; omega),
    filled_of_lt bytes 14 buf 18 (by show 14 + 18 < bytes.length; omega),
    filled_of_lt bytes 14 buf 19 (by show 14 + 19 < bytes.length; omega)]
  rfl

/-- The constructor on a file of at least 34 bytes: both checks are decided by the file. -/
theorem ctor_of_checked (fs : FileSystem) (path : String) (self : RawBitmap) (bytes : List Byte)
    (h : fs path = some bytes) (hlen : 34 ≤ bytes.length) :
    Bitmap.ctor fs path self =
      if fieldAt bytes 0 2 ≠ 0x4d42 then .error UnsupportedFormat
      else if fieldAt bytes 30 4 ≠ 0 then .error UnsupportedCompression
      else .ok { file_header := BitmapFileHeader.ofStorage (filled bytes 0 self.file_header),
                 info_header := BitmapInfoHeader.ofStorage (filled bytes 14 self.info_header) } := by
  rw [ctor_of_open fs path self bytes h, file_type_of_filled bytes _ (by omega),
    compression_of_filled bytes _ hlen]
  rfl

/-- Any failure of the constructor on a file that opens is one of the two validation failures. -/
theorem ctor_open_cases (fs : FileSystem) (path : String) (self : RawBitmap) (bytes : List Byte)
    (h : fs path = some bytes) :
    Bitmap.ctor fs path self = .error UnsupportedFormat ∨
    Bitmap.ctor fs path self = .error UnsupportedCompression ∨
    ∃ b, Bitmap.ctor fs path self = .ok b := by
  rw [ctor_of_open fs path self bytes h]
  split
  · exact Or.inl rfl
  · split
    · exact Or.inr (Or.inl rfl)
    · exact Or.inr (Or.inr ⟨_, rfl⟩)

/-- C4, the claim as stated fails on the code.  A 34-byte input (20 header bytes missing)
opens, and the constructor throws nothing: it returns a `Bitmap` whose last five fields are
the bytes the object's storage held before. -/
theorem C4_counterexample :
    truncated34.length = 34 ∧
    Bitmap.ctor (onlyFile truncated34) "short.bmp" zeroStorage =
      .ok { file_header :=
              { file_type := 0x4D42, file_size := 54, reserved1 := 0, reserved2 := 0,
                data_address := 54 }
            info_header :=
              { header_size := 40, width := 128, height := -1, color_planes_count := 1,
                color_depth := 24, compression_method := 0, image_size := 0,
                horizontal_resolution := 0, vertical_resolution := 0,
                palette_color_count := 0, important_color_count := 0 } } := by
  decide

/-- C4, amended.  For an input that opens and is shorter than 54 bytes the constructor has no
failure for truncation: it throws one of the two validation failures or returns a `Bitmap`.
If the input has its first two bytes and they are not `42 4D`, it throws the signature
failure; if it has at least 34 bytes and starts `42 4D`, it throws the compression failure
when bytes 30..33 are not all zero. -/
theorem C4_short_input (fs : FileSystem) (path : String) (self : RawBitmap)
    (bytes : List Byte) (hopen : fs path = some bytes) (hshort : bytes.length < 54) :
    (Bitmap.ctor fs path self = .error UnsupportedFormat ∨
      Bitmap.ctor fs path self = .error UnsupportedCompression ∨
      ∃ b, Bitmap.ctor fs path self = .ok b) ∧
    (2 ≤ bytes.length → bytes.take 2 ≠ [0x42, 0x4D] →
      Bitmap.ctor fs path self = .error UnsupportedFormat) ∧
    (34 ≤ bytes.length → bytes.take 2 = [0x42, 0x4D] →
      (bytes.drop 30).take 4 ≠ [0, 0, 0, 0] →
      Bitmap.ctor fs path self = .error UnsupportedCompression) := by
  have _ := hshort
  refine ⟨ctor_open_cases fs path self bytes hopen, ?_, ?_⟩
  · intro hlen hsig
    have hne : fieldAt bytes 0 2 ≠ Bitmap.BITMAP_TYPE_BM :=
      fun h => hsig ((file_type_iff bytes hlen).1 h)
    rw [ctor_of_open fs path self bytes hopen, file_type_of_filled bytes _ hlen, if_pos hne]
  · intro hlen hsig hcomp
    rw [ctor_of_checked fs path self bytes hopen hlen, file_type_of_take bytes hsig,
      if_neg (by simp), if_pos (compression_ne_zero bytes hlen hcomp)]

/-- Witness for C4: the 34-byte input with compression field `01 00 00 00`, on storage full
of `FF`. -/
theorem C4_short_input_witness :
    truncatedCompressed34.length < 54 ∧
    Bitmap.ctor (onlyFile truncatedCompressed34) "short.bmp" onesStorage =
      .error ⟨"A compressed bitmap was encountered."⟩ :=
  ⟨by decide,
   (C4_short_input (onlyFile truncatedCompressed34) "short.bmp" onesStorage
      truncatedCompressed34 rfl (by decide)).2.2 (by decide) (by decide) (by decide)⟩

theorem ctor_of_unopenable (fs : FileSystem) (path : String) (self : RawBitmap)
    (h : fs path = none) : Bitmap.ctor fs path self = .error SourceUnavailable := by
  unfold Bitmap.ctor ifstream.open
  simp only [h]
  rfl

/-- A `Bitmap` that the constructor returns passed both checks. -/
theorem ctor_ok_valid (fs : FileSystem) (path : String) (self : RawBitmap) (b : Bitmap)
    (hok : Bitmap.ctor fs path self = .ok b) :
    b.file_header.file_type = 0x4D42 ∧ b.info_header.compression_method = 0 ∧
    ∃ bytes, fs path = some bytes ∧
      b = { file_header := BitmapFileHeader.ofStorage (filled bytes 0 self.file_header),
            info_header := BitmapInfoHeader.ofStorage (filled bytes 14 self.info_header) } := by
  cases hfs : fs path with
  | none =>
    rw [ctor_of_unopenable fs path self hfs] at hok
    cases hok
  | some bytes =>
    rw [ctor_of_open fs path self bytes hfs] at hok
    split at hok
    · cases hok
    · rename_i hft
      split at hok
      · cases hok
      · rename_i hc
        injection hok with hb
        subst hb
        exact ⟨not_not.1 hft, not_not.1 hc, bytes, rfl, rfl⟩

/-- C5, the claim as stated fails on the code.  A 40-byte input ends inside the
`horizontal_resolution` field; the constructor returns a `Bitmap` all the same, in which that
field is two bytes of the file and two bytes of the earlier storage, and the three fields
after it are earlier storage only. -/
theorem C5_counterexample :
    truncated40.length = 40 ∧
    Bitmap.ctor (onlyFile truncated40) "short.bmp" onesStorage =
      .ok { file_header :=
              { file_type := 0x4D42, file_size := 54, reserved1 := 0, reserved2 := 0,
                data_address := 54 }
            info_header :=
              { header_size := 40, width := 128, height := -1, color_planes_count := 1,
                color_depth := 24, compression_method := 0, image_size := 0,
                horizontal_resolution := 0xFFFF0000, vertical_resolution := 0xFFFFFFFF,
                palette_color_count := 0xFFFFFFFF, important_color_count := 0xFFFFFFFF } } := by
  decide

/-- C5, amended.  For every input the constructor either returns a `Bitmap` whose stored
`file_type` is `0x4D42` and whose stored `compression_method` is 0, read from a file that
opened, and equal to the layout table's two records whenever that file has all 54 header
bytes; or it throws exactly one of the three failures the code has (could not be opened,
not type BM, compressed). -/
theorem C5_success_or_one_failure (fs : FileSystem) (path : String) (self : RawBitmap) :
    (∃ b, Bitmap.ctor fs path self = .ok b ∧
        b.file_header.file_type = 0x4D42 ∧ b.info_header.compression_method = 0 ∧
        ∃ bytes, fs path = some bytes ∧
          (54 ≤ bytes.length →
            b = { file_header := tableFileHeader bytes, info_header := tableInfoHeader bytes })) ∨
    (Bitmap.ctor fs path self = .error SourceUnavailable ∧ fs path = none) ∨
    Bitmap.ctor fs path self = .error UnsupportedFormat ∨
    Bitmap.ctor fs path self = .error UnsupportedCompression := by
  cases hfs : fs path with
  | none => exact Or.inr (Or.inl ⟨ctor_of_unopenable fs path self hfs, rfl⟩)
  | some bytes =>
    rcases ctor_open_cases fs path self bytes hfs with h | h | ⟨b, h⟩
    · exact Or.inr (Or.inr (Or.inl h))
    · exact Or.inr (Or.inr (Or.inr h))
    · left
      obtain ⟨hft, hc, bytes2, hfs2, hb⟩ := ctor_ok_valid fs path self b h
      refine ⟨b, h, hft, hc, bytes, rfl, ?_⟩
      intro hlen
      rw [hfs] at hfs2
      injection hfs2 with hbytes
      subst hbytes
      rw [hb, fileHeader_of_full bytes _ (by omega), infoHeader_of_full bytes _ hlen]

/-- Witness for C5: on the full 54-byte sample the first alternative holds, with the table's
records. -/
theorem C5_success_or_one_failure_witness :
    54 ≤ sample54.length ∧
    Bitmap.ctor (onlyFile sample54) "sample.bmp" onesStorage =
      .ok { file_header := tableFileHeader sample54, info_header := tableInfoHeader sample54 } := by
  refine ⟨by decide, ?_⟩
  rcases C5_success_or_one_failure (onlyFile sample54) "sample.bmp" onesStorage with
    ⟨b, hb, _, _, bytes, hbytes, hfull⟩ | ⟨h, _⟩ | h | h
  · injection hbytes with hbytes
    subst hbytes
    rw [hb, hfull (by decide)]
  · exact absurd h (by decide)
  · exact absurd h (by decide)
  · exact absurd h (by decide)

/-- C6, the claim as stated fails on the code.  A truncated input has no error value of its
own: the 34-byte input with a nonzero compression field raises the very error value that the
full 54-byte input with that field raises, and the 34-byte input with a zero compression
field raises nothing at all. -/
theorem C6_counterexample :
    truncatedCompressed34.length < 54 ∧ compressedLow54.length = 54 ∧
    Bitmap.ctor (onlyFile truncatedCompressed34) "short.bmp" zeroStorage =
      Bitmap.ctor (onlyFile compressedLow54) "full.bmp" zeroStorage ∧
    Bitmap.ctor (onlyFile truncatedCompressed34) "short.bmp" zeroStorage =
      .error ⟨"A compressed bitmap was encountered."⟩ ∧
    truncated34.length < 54 ∧
    (Bitmap.ctor (onlyFile truncated34) "short.bmp" zeroStorage).toBool = true := by
  decide

/-- C6, amended.  The failures raised for a source that cannot be opened, for a wrong
signature and for a nonzero compression method are three pairwise distinct error values,
told apart by their message; a truncated input raises no failure of its own: whatever an
input shorter than 54 bytes raises is the signature failure or the compression failure. -/
theorem C6_three_distinct_failures
    (fsU : FileSystem) (pathU : String) (selfU : RawBitmap)
    (fsF : FileSystem) (pathF : String) (selfF : RawBitmap) (bytesF : List Byte)
    (fsC : FileSystem) (pathC : String) (selfC : RawBitmap) (bytesC : List Byte)
    (fsT : FileSystem) (pathT : String) (selfT : RawBitmap) (bytesT : List Byte)
    (hU : fsU pathU = none)
    (hF : fsF pathF = some bytesF) (hFlen : 2 ≤ bytesF.length)
    (hFsig : bytesF.take 2 ≠ [0x42, 0x4D])
    (hC : fsC pathC = some bytesC) (hClen : 54 ≤ bytesC.length)
    (hCsig : bytesC.take 2 = [0x42, 0x4D]) (hCcomp : (bytesC.drop 30).take 4 ≠ [0, 0, 0, 0])
    (hT : fsT pathT = some bytesT) (hTlen : bytesT.length < 54) :
    ∃ eU eF eC : runtime_error,
      Bitmap.ctor fsU pathU selfU = .error eU ∧
      Bitmap.ctor fsF pathF selfF = .error eF ∧
      Bitmap.ctor fsC pathC selfC = .error eC ∧
      eU ≠ eF ∧ eU ≠ eC ∧ eF ≠ eC ∧
      eU.what ≠ eF.what ∧ eU.what ≠ eC.what ∧ eF.what ≠ eC.what ∧
      ∀ e, Bitmap.ctor fsT pathT selfT = .error e → e = eF ∨ e = eC := by
  have _ := hTlen
  refine ⟨SourceUnavailable, UnsupportedFormat, UnsupportedCompression,
    ctor_of_unopenable fsU pathU selfU hU, ?_, ?_,
    by decide, by decide, by decide, by decide, by decide, by decide, ?_⟩
  · have hne : fieldAt bytesF 0 2 ≠ Bitmap.BITMAP_TYPE_BM :=
      fun h => hFsig ((file_type_iff bytesF hFlen).1 h)
    rw [ctor_of_open fsF pathF selfF bytesF hF, file_type_of_filled bytesF _ hFlen, if_pos hne]
  · rw [ctor_of_full fsC pathC selfC bytesC hC hClen, file_type_of_take bytesC hCsig,
      if_neg (by simp), if_pos (compression_ne_zero bytesC (by omega) hCcomp)]
  · intro e he
    rcases ctor_open_cases fsT pathT selfT bytesT hT with h | h | ⟨b, h⟩
    · rw [h] at he
      injection he with he
      exact Or.inl he.symm
    · rw [h] at he
      injection he with he
      exact Or.inr he.symm
    · rw [h] at he
      cases he

/-- Witness for C6: a missing file, the swapped signature, a compressed header and a
truncated compressed header. -/
theorem C6_three_distinct_failures_witness :
    ∃ eU eF eC : runtime_error,
      Bitmap.ctor noFile "missing.bmp" zeroStorage = .error eU ∧
      Bitmap.ctor (onlyFile wrongSignature54) "swapped.bmp" zeroStorage = .error eF ∧
      Bitmap.ctor (onlyFile compressed54) "rle.bmp" zeroStorage = .error eC ∧
      eU ≠ eF ∧ eU ≠ eC ∧ eF ≠ eC ∧
      eU.what ≠ eF.what ∧ eU.what ≠ eC.what ∧ eF.what ≠ eC.what ∧
      ∀ e, Bitmap.ctor (onlyFile truncatedCompressed34) "short.bmp" onesStorage = .error e →
        e = eF ∨ e = eC :=
  C6_three_distinct_failures noFile "missing.bmp" zeroStorage
    (onlyFile wrongSignature54) "swapped.bmp" zeroStorage wrongSignature54
    (onlyFile compressed54) "rle.bmp" zeroStorage compressed54
    (onlyFile truncatedCompressed34) "short.bmp" onesStorage truncatedCompressed34
    rfl rfl (by decide) (by decide) rfl (by decide) (by decide) (by decide) rfl (by decide)

/-- C7. When the path cannot be opened the constructor throws the failure with message
"The file could not be opened.", whatever the object's storage holds: no header byte is
read or checked, so neither the signature failure nor the compression failure is raised,
and the stream it failed to open has no bytes to give. -/
theorem C7_unopenable_source (fs : FileSystem) (path : String) (self : RawBitmap)
    (hclosed : fs path = none) :
    Bitmap.ctor fs path self = .error SourceUnavailable ∧
    SourceUnavailable.what = "The file could not be opened." ∧
    Bitmap.ctor fs path self ≠ .error UnsupportedFormat ∧
    Bitmap.ctor fs path self ≠ .error UnsupportedCompression ∧
    (ifstream.open fs path).good = false ∧
    ((ifstream.open fs path).read self.file_header).2 = self.file_header := by
  have hg : (ifstream.open fs path).good = false := by
    unfold ifstream.open
    rw [hclosed]
  refine ⟨ctor_of_unopenable fs path self hclosed, rfl, ?_, ?_, hg, ?_⟩
  · rw [ctor_of_unopenable fs path self hclosed]
    decide
  · rw [ctor_of_unopenable fs path self hclosed]
    decide
  · rw [read_not_good _ _ hg]

/-- Witness for C7: no file at the path, and storage that would pass the signature check. -/
theorem C7_unopenable_source_witness :
    Bitmap.ctor noFile "missing.bmp" staleStorage =
      .error ⟨"The file could not be opened."⟩ :=
  (C7_unopenable_source noFile "missing.bmp" staleStorage rfl).1

/-- A `Bitmap` returned for a file of at least 54 bytes holds the layout table's records. -/
theorem ctor_full_ok (fs : FileSystem) (path : String) (self : RawBitmap) (bytes : List Byte)
    (b : Bitmap) (hopen : fs path = some bytes) (hlen : 54 ≤ bytes.length)
    (hok : Bitmap.ctor fs path self = .ok b) :
    b = { file_header := tableFileHeader bytes, info_header := tableInfoHeader bytes } := by
  rw [ctor_of_full fs path self bytes hopen hlen] at hok
  split at hok
  · cases hok
  · split at hok
    · cases hok
    · injection hok with hb
      exact hb.symm

theorem twosComplement32_bounds (u : Nat) (hu : u < 4294967296) :
    -(2 ^ 31 : Int) ≤ twosComplement32 u ∧ twosComplement32 u ≤ 2 ^ 31 - 1 := by
  unfold twosComplement32
  split <;> constructor <;> omega

theorem fieldAt_four_lt (bytes : List Byte) (off : Nat) (h : off + 4 ≤ bytes.length) :
    fieldAt bytes off 4 < 4294967296 := by
  rw [fieldAt_four bytes off h]
  exact le32_lt _ _ _ _

/-- C8. In a constructed `Bitmap`, `width` and `height` are the two's-complement readings of
the little-endian values `u` of bytes 18..21 and 22..25: `u` when `u < 2^31`, `u - 2^32`
otherwise, hence within `[-2^31, 2^31 - 1]`; width bytes `80 00 00 00` give 128 and height
bytes `FF FF FF FF` give -1.  Every other field is the unsigned little-endian value of its
bytes. -/
theorem C8_signed_width_height (fs : FileSystem) (path : String) (self : RawBitmap)
    (bytes : List Byte) (b : Bitmap) (hopen : fs path = some bytes) (hlen : 54 ≤ bytes.length)
    (hok : Bitmap.ctor fs path self = .ok b) :
    (b.info_header.width =
        if fieldAt bytes 18 4 < 2 ^ 31 then (fieldAt bytes 18 4 : Int)
        else (fieldAt bytes 18 4 : Int) - 2 ^ 32) ∧
    (b.info_header.height =
        if fieldAt bytes 22 4 < 2 ^ 31 then (fieldAt bytes 22 4 : Int)
        else (fieldAt bytes 22 4 : Int) - 2 ^ 32) ∧
    (-(2 ^ 31 : Int) ≤ b.info_header.width ∧ b.info_header.width ≤ 2 ^ 31 - 1) ∧
    (-(2 ^ 31 : Int) ≤ b.info_header.height ∧ b.info_header.height ≤ 2 ^ 31 - 1) ∧
    ((bytes.drop 18).take 4 = [0x80, 0x00, 0x00, 0x00] → b.info_header.width = 128) ∧
    ((bytes.drop 22).take 4 = [0xFF, 0xFF, 0xFF, 0xFF] → b.info_header.height = -1) ∧
    b.file_header.file_type = fieldAt bytes 0 2 ∧
    b.file_header.file_size = fieldAt bytes 2 4 ∧
    b.file_header.reserved1 = fieldAt bytes 6 2 ∧
    b.file_header.reserved2 = fieldAt bytes 8 2 ∧
    b.file_header.data_address = fieldAt bytes 10 4 ∧
    b.info_header.header_size = fieldAt bytes 14 4 ∧
    b.info_header.color_planes_count = fieldAt bytes 26 2 ∧
    b.info_header.color_depth = fieldAt bytes 28 2 ∧
    b.info_header.compression_method = fieldAt bytes 30 4 ∧
    b.info_header.image_size = fieldAt bytes 34 4 ∧
    b.info_header.horizontal_resolution = fieldAt bytes 38 4 ∧
    b.info_header.vertical_resolution = fieldAt bytes 42 4 ∧
    b.info_header.palette_color_count = fieldAt bytes 46 4 ∧
    b.info_header.important_color_count = fieldAt bytes 50 4 := by
  have hb := ctor_full_ok fs path self bytes b hopen hlen hok
  subst hb
  refine ⟨rfl, rfl, twosComplement32_bounds _ (fieldAt_four_lt bytes 18 (by omega)),
    twosComplement32_bounds _ (fieldAt_four_lt bytes 22 (by omega)), ?_, ?_,
    rfl, rfl, rfl, rfl, rfl, rfl, rfl, rfl, rfl, rfl, rfl, rfl, rfl, rfl⟩
  · intro hw
    show twosComplement32 (fieldAt bytes 18 4) = 128
    unfold fieldAt
    rw [hw]
    rfl
  · intro hh
    show twosComplement32 (fieldAt bytes 22 4) = -1
    unfold fieldAt
    rw [hh]
    rfl

/-- Witness for C8: the 54-byte sample has width bytes `80 00 00 00` and height bytes
`FF FF FF FF`. -/
theorem C8_signed_width_height_witness :
    ∃ b, Bitmap.ctor (onlyFile sample54) "sample.bmp" zeroStorage = .ok b ∧
      b.info_header.width = 128 ∧ b.info_header.height = -1 :=
  have h := C8_signed_width_height (onlyFile sample54) "sample.bmp" zeroStorage sample54
    { file_header := tableFileHeader sample54, info_header := tableInfoHeader sample54 }
    rfl (by decide) (by decide)
  ⟨_, by decide, h.2.2.2.2.1 (by decide), h.2.2.2.2.2.1 (by decide)⟩

/-- C9. Two byte sequences of at least 54 bytes that agree on their first 54 bytes give the
same outcome, in two separate objects with whatever earlier storage: the same `Bitmap`,
field for field, or the same failure.  Bytes after the 54th never change the outcome. -/
theorem C9_deterministic (fs1 fs2 : FileSystem) (path1 path2 : String)
    (self1 self2 : RawBitmap) (bytes1 bytes2 : List Byte)
    (hopen1 : fs1 path1 = some bytes1) (hopen2 : fs2 path2 = some bytes2)
    (hlen1 : 54 ≤ bytes1.length) (hlen2 : 54 ≤ bytes2.length)
    (hagree : bytes1.take 54 = bytes2.take 54) :
    Bitmap.ctor fs1 path1 self1 = Bitmap.ctor fs2 path2 self2 := by
  rw [ctor_of_full fs1 path1 self1 bytes1 hopen1 hlen1,
    ctor_of_full fs2 path2 self2 bytes2 hopen2 hlen2,
    ← fieldAt_take bytes1 54 0 2 (by omega), ← fieldAt_take bytes2 54 0 2 (by omega),
    ← fieldAt_take bytes1 54 30 4 (by omega), ← fieldAt_take bytes2 54 30 4 (by omega),
    ← tableFileHeader_take bytes1 54 (by omega), ← tableFileHeader_take bytes2 54 (by omega),
    ← tableInfoHeader_take bytes1 54 (by omega), ← tableInfoHeader_take bytes2 54 (by omega),
    hagree]

/-- Witness for C9: the sample header alone, and followed by three pixel bytes, read into
objects with different earlier storage. -/
theorem C9_deterministic_witness :
    Bitmap.ctor (onlyFile sample54) "a.bmp" zeroStorage =
      Bitmap.ctor (onlyFile (sample54 ++ [0x11, 0x22, 0x33])) "b.bmp" onesStorage :=
  C9_deterministic (onlyFile sample54) (onlyFile (sample54 ++ [0x11, 0x22, 0x33]))
    "a.bmp" "b.bmp" zeroStorage onesStorage sample54 (sample54 ++ [0x11, 0x22, 0x33])
    rfl rfl (by decide) (by decide) (by decide)

/-- The text `print_file_header` appends, for any stream state it starts from. -/
theorem print_file_header_text (b : Bitmap) (cout : ostream) :
    (b.print_file_header cout).text =
      cout.text ++ ("File Type: 0x" ++ String.mk (Nat.toDigits 16 b.file_header.file_type) ++ "\n"
        ++ "File Size: " ++ String.mk (Nat.toDigits 10 b.file_header.file_size) ++ "\n"
        ++ "Data Addr: 0x" ++ String.mk (Nat.toDigits 16 b.file_header.data_address) ++ "\n") := by
  simp only [Bitmap.print_file_header, ostream.put_string, ostream.hex, ostream.dec,
    ostream.endl, ostream.put_unsigned, String.append_assoc]
  rfl

theorem toDigits_length_le (v e : Nat) (he : 0 < e) (hv : v < 16 ^ e) :
    (Nat.toDigits 16 v).length ≤ e :=
  Nat.toDigitsCore_length 16 (by decide) (v + 1) v e hv he

theorem digitChar_hex (d : Nat) (hd : d < 16) : Nat.digitChar d ∈ "0123456789abcdef".data := by
  interval_cases d <;> decide

theorem toDigitsCore_hex (fuel : Nat) : ∀ (n : Nat) (acc : List Char),
    (∀ c ∈ acc, c ∈ "0123456789abcdef".data) →
    ∀ c ∈ Nat.toDigitsCore 16 fuel n acc, c ∈ "0123456789abcdef".data := by
  induction fuel with
  | zero => intro n acc hacc; simpa [Nat.toDigitsCore] using hacc
  | succ f ih =>
    intro n acc hacc
    have hcons : ∀ c ∈ Nat.digitChar (n % 16) :: acc, c ∈ "0123456789abcdef".data := by
      intro c hc
      rcases List.mem_cons.1 hc with rfl | hc
      · exact digitChar_hex _ (Nat.mod_lt _ (by decide))
      · exact hacc c hc
    simp only [Nat.toDigitsCore]
    split
    · exact hcons
    · exact ih _ _ hcons

/-- C10, the claim as stated fails on the code.  For the 54-byte sample, whose `data_address`
is 54, the report is the text below: `data_address` is printed as `0x36`, not as the
zero-padded `0x0036`. -/
theorem C10_counterexample :
    (Bitmap.ctor (onlyFile sample54) "sample.bmp" zeroStorage).map
      (fun b => (b.print_file_header ostream.initial).text) =
      .ok "File Type: 0x4d42\nFile Size: 54\nData Addr: 0x36\n" ∧
    "File Type: 0x4d42\nFile Size: 54\nData Addr: 0x36\n" ≠
      "File Type: 0x4d42\nFile Size: 54\nData Addr: 0x0036\n" := by
  decide

/-- C10, amended.  For every constructed `Bitmap`, `print_file_header` writes `file_type` and
`data_address` as `0x` followed by the value in lowercase hexadecimal with no padding:
`file_type` is always `0x4d42`, and `data_address` has only the digits `0..9a..f` and as few
of them as its value needs (at most `e` digits below `16^e`), so 54 is printed as `0x36`. -/
theorem C10_hex_unpadded (fs : FileSystem) (path : String) (self : RawBitmap) (b : Bitmap)
    (cout : ostream) (hok : Bitmap.ctor fs path self = .ok b) :
    (b.print_file_header cout).text =
      cout.text ++ ("File Type: 0x4d42\n"
        ++ "File Size: " ++ String.mk (Nat.toDigits 10 b.file_header.file_size) ++ "\n"
        ++ "Data Addr: 0x" ++ String.mk (Nat.toDigits 16 b.file_header.data_address) ++ "\n") ∧
    (∀ c ∈ Nat.toDigits 16 b.file_header.data_address, c ∈ "0123456789abcdef".data) ∧
    (∀ e, 0 < e → b.file_header.data_address < 16 ^ e →
      (Nat.toDigits 16 b.file_header.data_address).length ≤ e) ∧
    (b.file_header.data_address = 54 →
      String.mk (Nat.toDigits 16 b.file_header.data_address) = "36") := by
  obtain ⟨hft, _, _⟩ := ctor_ok_valid fs path self b hok
  refine ⟨?_, ?_, ?_, ?_⟩
  · rw [print_file_header_text, hft]
    rfl
  · exact toDigitsCore_hex _ _ [] (by simp)
  · intro e he hv
    exact toDigits_length_le _ e he hv
  · intro h
    rw [h]
    rfl

/-- Witness for C10: the 54-byte sample, printed to a fresh stream. -/
theorem C10_hex_unpadded_witness :
    (({ file_header := tableFileHeader sample54, info_header := tableInfoHeader sample54 }
        : Bitmap).print_file_header ostream.initial).text =
      "File Type: 0x4d42\nFile Size: 54\nData Addr: 0x36\n" ∧
    (Nat.toDigits 16 (tableFileHeader sample54).data_address).length ≤ 2 :=
  have h := C10_hex_unpadded (onlyFile sample54) "sample.bmp" zeroStorage
    { file_header := tableFileHeader sample54, info_header := tableInfoHeader sample54 }
    ostream.initial (by decide)
  ⟨h.1, h.2.2.1 2 (by decide) (by decide)⟩

/-! ## The report -/

theorem print_file_header_base (b : Bitmap) (cout : ostream) :
    (b.print_file_header cout).base = .dec := by
  simp only [Bitmap.print_file_header, ostream.put_string, ostream.hex, ostream.dec,
    ostream.endl, ostream.put_unsigned]

theorem put_unsigned_dec (os : ostream) (v : Nat) (h : os.base = .dec) :
    os.put_unsigned v = { text := os.text ++ toString v, base := .dec } := by
  cases os with
  | mk text base =>
    simp only at h
    subst h
    rfl

theorem put_int32_dec (os : ostream) (v : Int) (h : os.base = .dec) :
    os.put_int32 v = { text := os.text ++ toString v, base := .dec } := by
  cases os with
  | mk text base =>
    simp only at h
    subst h
    cases v with
    | ofNat n =>
      have hn : ¬ (Int.ofNat n < 0) := by simp
      simp only [ostream.put_int32, hn, if_false, ostream.put_string]
      rfl
    | negSucc n =>
      have hn : Int.negSucc n < 0 := Int.negSucc_lt_zero n
      simp only [ostream.put_int32, hn, if_true, ostream.put_string]
      rfl

/-- The text `print_info_header` appends when the stream is in decimal mode, which it
leaves as it is. -/
theorem print_info_header_dec (b : Bitmap) (cout : ostream) (h : cout.base = .dec) :
    b.print_info_header cout =
      { text := cout.text ++
          ("Header size:           " ++ toString b.info_header.header_size ++ "\n"
          ++ "Width:                 " ++ toString b.info_header.width ++ "\n"
          ++ "Height:                " ++ toString b.info_header.height ++ "\n"
          ++ "Color planes:          " ++ toString b.info_header.color_planes_count ++ "\n"
          ++ "Color depth:           " ++ toString b.info_header.color_depth ++ "\n"
          ++ "Compression method:    " ++ toString b.info_header.compression_method ++ "\n"
          ++ "Image size:            " ++ toString b.info_header.image_size ++ "\n"
          ++ "Horizontal resolution: " ++ toString b.info_header.horizontal_resolution ++ "\n"
          ++ "Vertical resolution:   " ++ toString b.info_header.vertical_resolution ++ "\n"
          ++ "Palette colors:        " ++ toString b.info_header.palette_color_count ++ "\n"
          ++ "Important colors:      " ++ toString b.info_header.important_color_count ++ "\n"),
        base := .dec } := by
  cases cout with
  | mk text base =>
    simp only at h
    subst h
    simp only [Bitmap.print_info_header, ostream.endl, ostream.put_string,
      put_unsigned_dec, put_int32_dec, String.append_assoc]

theorem report_text (b : Bitmap) (cout : ostream) :
    b.print_info_header (b.print_file_header cout) =
      { text := cout.text ++ unlines (reportLines b), base := .dec } := by
  rw [print_info_header_dec b _ (print_file_header_base b cout), print_file_header_text]
  simp only [unlines, reportLines, List.foldr, hexText, String.append_assoc, String.append_empty]
  rfl

set_option maxRecDepth 100000

/-- C11, the claim as stated fails on the code.  For a header whose `reserved1` is `0x1234`
and whose `reserved2` is `0x5678` the program prints the 14 lines below: none for
`reserved1`, none for `reserved2`, and the same text as for the header in which both are 0. -/
theorem C11_counterexample :
    (tableFileHeader reserved54).reserved1 = 0x1234 ∧
    (tableFileHeader reserved54).reserved2 = 0x5678 ∧
    main (onlyFile reserved54) zeroStorage =
      .ok { text := "File Type: 0x4d42\nFile Size: 54\nData Addr: 0x36\n" ++
                    "Header size:           40\nWidth:                 128\n" ++
                    "Height:                -1\nColor planes:          1\n" ++
                    "Color depth:           24\nCompression method:    0\n" ++
                    "Image size:            0\nHorizontal resolution: 0\n" ++
                    "Vertical resolution:   0\nPalette colors:        0\n" ++
                    "Important colors:      0\n",
            base := .dec } ∧
    main (onlyFile reserved54) zeroStorage = main (onlyFile sample54) zeroStorage :=
  ⟨by decide, by decide, rfl, rfl⟩

/-- C11, amended.  For every constructed `Bitmap`, `print_file_header` followed by
`print_info_header` writes one line for each of 14 fields, in table order: `file_type`,
`file_size`, `data_address`, then the eleven fields of the info header.  `reserved1` and
`reserved2` have no line, and the report is the same whatever they hold.  This is the text
`main` prints. -/
theorem C11_report_fourteen_lines (fs : FileSystem) (path : String) (self : RawBitmap)
    (b : Bitmap) (hok : Bitmap.ctor fs path self = .ok b) :
    (∀ cout : ostream,
      (b.print_info_header (b.print_file_header cout)).text =
        cout.text ++ unlines (reportLines b)) ∧
    (reportLines b).length = 14 ∧
    (∀ r1 r2 : Nat,
      reportLines { b with file_header := { b.file_header with reserved1 := r1,
                                                                reserved2 := r2 } } =
        reportLines b) ∧
    (path = INPUT_BMP_FILE →
      main fs self = .ok { text := unlines (reportLines b), base := .dec }) := by
  refine ⟨fun cout => by rw [report_text], rfl, fun _ _ => rfl, ?_⟩
  intro hpath
  subst hpath
  unfold main
  rw [hok]
  simp only [report_text]
  rfl

/-- Witness for C11: the report `main` prints for the 54-byte sample. -/
theorem C11_report_fourteen_lines_witness :
    main (onlyFile sample54) zeroStorage =
      .ok { text := unlines (reportLines
              { file_header := tableFileHeader sample54,
                info_header := tableInfoHeader sample54 }),
            base := .dec } :=
  (C11_report_fourteen_lines (onlyFile sample54) INPUT_BMP_FILE zeroStorage
    { file_header := tableFileHeader sample54, info_header := tableInfoHeader sample54 }
    (by decide)).2.2.2 rfl

/-- C12. Every value the report prints other than `file_type` and `data_address` is in plain
decimal: `print_file_header` leaves the stream in decimal mode whatever mode it found, it
prints `file_size` in decimal between the two hexadecimal values, and `print_info_header`
called after it prints all eleven fields in decimal, a negative `width` or `height` with a
leading minus sign. -/
theorem C12_decimal_fields (b : Bitmap) (cout : ostream) :
    (b.print_file_header cout).base = .dec ∧
    (b.print_file_header cout).text =
      cout.text ++ ("File Type: 0x" ++ hexText b.file_header.file_type ++ "\n"
        ++ "File Size: " ++ toString b.file_header.file_size ++ "\n"
        ++ "Data Addr: 0x" ++ hexText b.file_header.data_address ++ "\n") ∧
    (b.print_info_header (b.print_file_header cout)).text =
      (b.print_file_header cout).text ++
        ("Header size:           " ++ toString b.info_header.header_size ++ "\n"
        ++ "Width:                 " ++ toString b.info_header.width ++ "\n"
        ++ "Height:                " ++ toString b.info_header.height ++ "\n"
        ++ "Color planes:          " ++ toString b.info_header.color_planes_count ++ "\n"
        ++ "Color depth:           " ++ toString b.info_header.color_depth ++ "\n"
        ++ "Compression method:    " ++ toString b.info_header.compression_method ++ "\n"
        ++ "Image size:            " ++ toString b.info_header.image_size ++ "\n"
        ++ "Horizontal resolution: " ++ toString b.info_header.horizontal_resolution ++ "\n"
        ++ "Vertical resolution:   " ++ toString b.info_header.vertical_resolution ++ "\n"
        ++ "Palette colors:        " ++ toString b.info_header.palette_color_count ++ "\n"
        ++ "Important colors:      " ++ toString b.info_header.important_color_count ++ "\n") ∧
    (b.info_header.width < 0 →
      toString b.info_header.width = "-" ++ toString b.info_header.width.natAbs) ∧
    (b.info_header.height < 0 →
      toString b.info_header.height = "-" ++ toString b.info_header.height.natAbs) := by
  refine ⟨print_file_header_base b cout, ?_, ?_, ?_, ?_⟩
  · rw [print_file_header_text]
    rfl
  · rw [print_info_header_dec b _ (print_file_header_base b cout)]
  · intro h
    cases hw : b.info_header.width with
    | ofNat n => rw [hw] at h; exact absurd h (by simp)
    | negSucc n => rfl
  · intro h
    cases hh : b.info_header.height with
    | ofNat n => rw [hh] at h; exact absurd h (by simp)
    | negSucc n => rfl

/-- Witness for C12: the sample header, whose height is -1, printed to a stream that was left
in hexadecimal mode. -/
theorem C12_decimal_fields_witness :
    toString (tableInfoHeader sample54).height = "-1" ∧
    (({ file_header := tableFileHeader sample54, info_header := tableInfoHeader sample54 }
        : Bitmap).print_file_header { text := "", base := .hex }).base = .dec :=
  have h := C12_decimal_fields
    { file_header := tableFileHeader sample54, info_header := tableInfoHeader sample54 }
    { text := "", base := .hex }
  ⟨h.2.2.2.2 (by decide), h.1⟩

/-! ## Repeated member calls -/

/-- A call of `print_file_header` writes the same text whatever mode the stream is in, and
leaves it in decimal mode. -/
theorem call_print_file_header (b : Bitmap) (cout : ostream) :
    Bitmap.call .print_file_header (b, cout) =
      (b, { text := cout.text ++ (Bitmap.call .print_file_header (b, ostream.initial)).2.text,
            base := .dec }) := by
  simp only [Bitmap.call]
  refine Prod.ext rfl ?_
  have hb := print_file_header_base b cout
  have ht := print_file_header_text b cout
  have ht0 := print_file_header_text b ostream.initial
  cases hc : b.print_file_header cout with
  | mk text base =>
    rw [hc] at hb ht
    simp only at hb ht
    simp only [ostream.mk.injEq]
    refine ⟨?_, hb⟩
    rw [ht, ht0]
    simp [ostream.initial]

/-- The text one call of a member writes for `b` on a stream in decimal mode. -/
theorem call_dec (m : Method) (b : Bitmap) (cout : ostream) (h : cout.base = .dec) :
    Bitmap.call m (b, cout) =
      (b, { text := cout.text ++ (Bitmap.call m (b, ostream.initial)).2.text, base := .dec }) := by
  cases m with
  | print_file_header => exact call_print_file_header b cout
  | print_info_header =>
    simp only [Bitmap.call]
    refine Prod.ext rfl ?_
    simp only
    rw [print_info_header_dec b cout h, print_info_header_dec b ostream.initial rfl]
    simp [ostream.initial]

theorem calls_dec (ms : List Method) (b : Bitmap) : ∀ cout : ostream, cout.base = .dec →
    Bitmap.calls ms (b, cout) =
      (b, { text := cout.text ++
              concatText (ms.map (fun m => (Bitmap.call m (b, ostream.initial)).2.text)),
            base := .dec }) := by
  induction ms with
  | nil =>
    intro cout h
    cases cout with
    | mk text base =>
      simp only at h
      subst h
      simp [Bitmap.calls, concatText]
  | cons m ms ih =>
    intro cout h
    have hstep : Bitmap.calls (m :: ms) (b, cout) = Bitmap.calls ms (Bitmap.call m (b, cout)) := rfl
    rw [hstep, call_dec m b cout h, ih _ rfl]
    simp [concatText, String.append_assoc]

/-- No sequence of member calls changes the object, whatever state the stream is in. -/
theorem calls_fst (ms : List Method) : ∀ state : Bitmap × ostream,
    (Bitmap.calls ms state).1 = state.1 := by
  induction ms with
  | nil => intro state; rfl
  | cons m ms ih =>
    intro state
    have hstep : Bitmap.calls (m :: ms) state = Bitmap.calls ms (Bitmap.call m state) := rfl
    rw [hstep, ih]
    cases m <;> rfl

/-- C13. Any sequence of calls of `print_file_header` and `print_info_header`, in any order
and on a stream in any state, leaves both records of a constructed `Bitmap` equal, field for
field, to what the constructor decoded.  Every call of a member writes the same text as any
other call of that member, so a second call prints what the first printed, as soon as the
stream is in decimal mode when the calls start (as `cout` is at program start) or the first
call is `print_file_header` (as in `main`); the stream is then left in decimal mode. -/
theorem C13_records_never_mutated (fs : FileSystem) (path : String) (self : RawBitmap)
    (b : Bitmap) (cout : ostream) (ms : List Method)
    (hok : Bitmap.ctor fs path self = .ok b) :
    (Bitmap.calls ms (b, cout)).1 = b ∧
    (Bitmap.calls ms (b, cout)).1.file_header = b.file_header ∧
    (Bitmap.calls ms (b, cout)).1.info_header = b.info_header ∧
    Bitmap.ctor fs path self = .ok (Bitmap.calls ms (b, cout)).1 ∧
    (cout.base = .dec →
      (Bitmap.calls ms (b, cout)).2.base = .dec ∧
      (Bitmap.calls ms (b, cout)).2.text =
        cout.text ++
          concatText (ms.map (fun m => (Bitmap.call m (b, ostream.initial)).2.text))) ∧
    ((Bitmap.calls (.print_file_header :: ms) (b, cout)).2.base = .dec ∧
      (Bitmap.calls (.print_file_header :: ms) (b, cout)).2.text =
        cout.text ++
          concatText ((Method.print_file_header :: ms).map
            (fun m => (Bitmap.call m (b, ostream.initial)).2.text))) ∧
    (cout.base = .dec → ∀ m : Method,
      (Bitmap.calls [m, m] (b, cout)).2.text =
        cout.text ++ ((Bitmap.call m (b, ostream.initial)).2.text ++
          (Bitmap.call m (b, ostream.initial)).2.text)) := by
  have h1 : (Bitmap.calls ms (b, cout)).1 = b := calls_fst ms (b, cout)
  refine ⟨h1, ?_, ?_, ?_, ?_, ?_, ?_⟩
  · rw [h1]
  · rw [h1]
  · rw [h1]; exact hok
  · intro hdec
    rw [calls_dec ms b cout hdec]
    exact ⟨rfl, rfl⟩
  · have hstep : Bitmap.calls (.print_file_header :: ms) (b, cout) =
        Bitmap.calls ms (Bitmap.call .print_file_header (b, cout)) := rfl
    rw [hstep, call_print_file_header b cout, calls_dec ms b _ rfl]
    refine ⟨rfl, ?_⟩
    simp [concatText, String.append_assoc]
  · intro hdec m
    rw [calls_dec [m, m] b cout hdec]
    simp [concatText]

/-- Witness for C13: info header, file header, info header, file header on the sample, from
the stream as it is at program start. -/
theorem C13_records_never_mutated_witness :
    (Bitmap.calls [.print_info_header, .print_file_header, .print_info_header,
        .print_file_header]
      ({ file_header := tableFileHeader sample54, info_header := tableInfoHeader sample54 },
        ostream.initial)).1 =
      { file_header := tableFileHeader sample54, info_header := tableInfoHeader sample54 } ∧
    (Bitmap.calls [.print_info_header, .print_info_header]
      ({ file_header := tableFileHeader sample54, info_header := tableInfoHeader sample54 },
        ostream.initial)).2.text =
      ostream.initial.text ++
        ((Bitmap.call .print_info_header
            ({ file_header := tableFileHeader sample54,
               info_header := tableInfoHeader sample54 }, ostream.initial)).2.text ++
         (Bitmap.call .print_info_header
            ({ file_header := tableFileHeader sample54,
               info_header := tableInfoHeader sample54 }, ostream.initial)).2.text) :=
  ⟨(C13_records_never_mutated (onlyFile sample54) "sample.bmp" zeroStorage
      { file_header := tableFileHeader sample54, info_header := tableInfoHeader sample54 }
      ostream.initial
      [.print_info_header, .print_file_header, .print_info_header, .print_file_header]
      (by decide)).1,
   (C13_records_never_mutated (onlyFile sample54) "sample.bmp" zeroStorage
      { file_header := tableFileHeader sample54, info_header := tableInfoHeader sample54 }
      ostream.initial [] (by decide)).2.2.2.2.2.2 rfl .print_info_header⟩

/-! ## The signature check -/

theorem validate_file_header_ok (h : BitmapFileHeader) :
    Bitmap.validate_file_header h = .ok () ↔ h.file_type = Bitmap.BITMAP_TYPE_BM := by
  unfold Bitmap.validate_file_header
  by_cases hft : h.file_type = Bitmap.BITMAP_TYPE_BM
  · simp [hft]
  · simp [hft]

theorem validate_file_header_error (h : BitmapFileHeader) :
    Bitmap.validate_file_header h = .error UnsupportedFormat ↔
      h.file_type ≠ Bitmap.BITMAP_TYPE_BM := by
  unfold Bitmap.validate_file_header UnsupportedFormat
  by_cases hft : h.file_type = Bitmap.BITMAP_TYPE_BM
  · simp [hft]
  · simp [hft]

/-- C14. The check of the 16-bit `file_type` against `BITMAP_TYPE_BM` is the check of the two
bytes: `b0 + 256 * b1 = 0x4D42` exactly when `b0 = 0x42` (the letter B) and `b1 = 0x4D` (the
letter M).  So `validate_file_header` accepts a header whose first two bytes are `42 4D` and
throws for every other pair, the swapped pair `4D 42` included. -/
theorem C14_signature_is_two_bytes (b0 b1 : Byte) (m : Fin 14 → Byte) :
    Bitmap.BITMAP_TYPE_BM = 0x4D42 ∧
    (b0.val + 256 * b1.val = Bitmap.BITMAP_TYPE_BM ↔ b0 = 0x42 ∧ b1 = 0x4D) ∧
    (Char.toNat 'B' = 0x42 ∧ Char.toNat 'M' = 0x4D) ∧
    (BitmapFileHeader.ofStorage m).file_type = (m 0).val + 256 * (m 1).val ∧
    (Bitmap.validate_file_header (BitmapFileHeader.ofStorage m) = .ok () ↔
      m 0 = 0x42 ∧ m 1 = 0x4D) ∧
    (Bitmap.validate_file_header (BitmapFileHeader.ofStorage m) = .error UnsupportedFormat ↔
      ¬ (m 0 = 0x42 ∧ m 1 = 0x4D)) ∧
    (0x4D + 256 * 0x42 ≠ Bitmap.BITMAP_TYPE_BM) := by
  refine ⟨rfl, le16_eq_BM b0 b1, ⟨rfl, rfl⟩, rfl, ?_, ?_, by decide⟩
  · rw [validate_file_header_ok]
    exact le16_eq_BM (m 0) (m 1)
  · rw [validate_file_header_error]
    exact not_congr (le16_eq_BM (m 0) (m 1))

/-- Witness for C14: the storage that holds the swapped pair `4D 42` is rejected, the storage
that holds `42 4D` is accepted. -/
theorem C14_signature_is_two_bytes_witness :
    Bitmap.validate_file_header
        (BitmapFileHeader.ofStorage (fun i => if i.val = 0 then 0x4D else 0x42)) =
      .error UnsupportedFormat ∧
    Bitmap.validate_file_header (BitmapFileHeader.ofStorage staleStorage.file_header) = .ok () :=
  ⟨(C14_signature_is_two_bytes 0x4D 0x42 (fun i => if i.val = 0 then 0x4D else 0x42)).2.2.2.2.2.1.2
      (by decide),
   (C14_signature_is_two_bytes 0x42 0x4D staleStorage.file_header).2.2.2.2.1.2
      ⟨by decide, by decide⟩⟩

/-! ## Writing the header back -/

theorem leBytes_length (size : Nat) : ∀ v : Nat, (leBytes size v).length = size := by
  induction size with
  | zero => intro v; rfl
  | succ n ih => intro v; simp [leBytes, ih]

/-- Writing a little-endian value back gives the bytes it was read from. -/
theorem leBytes_leValue (bs : List Byte) : leBytes bs.length (leValue bs) = bs := by
  induction bs with
  | nil => rfl
  | cons b bs ih =>
    have hb := b.isLt
    have hv : leValue (b :: bs) = b.val + 256 * leValue bs := rfl
    have hmod : (b.val + 256 * leValue bs) % 256 = b.val := by omega
    have hdiv : (b.val + 256 * leValue bs) / 256 = leValue bs := by omega
    simp only [List.length_cons, leBytes, hv, hdiv, ih]
    congr 1
    exact Fin.ext hmod

theorem leBytes_fieldAt (bytes : List Byte) (off size : Nat) (h : off + size ≤ bytes.length) :
    leBytes size (fieldAt bytes off size) = (bytes.drop off).take size := by
  have hl : ((bytes.drop off).take size).length = size := by
    simp only [List.length_take, List.length_drop]
    omega
  unfold fieldAt
  have := leBytes_leValue ((bytes.drop off).take size)
  rw [hl] at this
  exact this

theorem toUnsigned32_twosComplement32 (u : Nat) (hu : u < 4294967296) :
    toUnsigned32 (twosComplement32 u) = u := by
  unfold toUnsigned32 twosComplement32
  split <;> omega

/-- Two adjacent fields of the file, one after the other, are the bytes of both. -/
theorem segment_append (l : List Byte) (off n m : Nat) :
    (l.drop off).take n ++ (l.drop (off + n)).take m = (l.drop off).take (n + m) := by
  rw [List.take_add, List.drop_drop]

/-- The file header of the layout table, written back, is the first 14 bytes. -/
theorem writeFileHeader_table (bytes : List Byte) (h : 14 ≤ bytes.length) :
    writeFileHeader (tableFileHeader bytes) = bytes.take 14 := by
  simp only [writeFileHeader, tableFileHeader]
  rw [leBytes_fieldAt bytes 0 2 (by omega), leBytes_fieldAt bytes 2 4 (by omega),
    leBytes_fieldAt bytes 6 2 (by omega), leBytes_fieldAt bytes 8 2 (by omega),
    leBytes_fieldAt bytes 10 4 (by omega)]
  rw [segment_append bytes 0 2 4, segment_append bytes 0 6 2, segment_append bytes 0 8 2,
    segment_append bytes 0 10 4, List.drop_zero]

/-- The info header of the layout table, written back, is bytes 14..53. -/
theorem writeInfoHeader_table (bytes : List Byte) (h : 54 ≤ bytes.length) :
    writeInfoHeader (tableInfoHeader bytes) = (bytes.drop 14).take 40 := by
  simp only [writeInfoHeader, tableInfoHeader]
  rw [toUnsigned32_twosComplement32 _ (fieldAt_four_lt bytes 18 (by omega)),
    toUnsigned32_twosComplement32 _ (fieldAt_four_lt bytes 22 (by omega))]
  rw [leBytes_fieldAt bytes 14 4 (by omega), leBytes_fieldAt bytes 18 4 (by omega),
    leBytes_fieldAt bytes 22 4 (by omega), leBytes_fieldAt bytes 26 2 (by omega),
    leBytes_fieldAt bytes 28 2 (by omega), leBytes_fieldAt bytes 30 4 (by omega),
    leBytes_fieldAt bytes 34 4 (by omega), leBytes_fieldAt bytes 38 4 (by omega),
    leBytes_fieldAt bytes 42 4 (by omega), leBytes_fieldAt bytes 46 4 (by omega),
    leBytes_fieldAt bytes 50 4 (by omega)]
  rw [segment_append bytes 14 4 4, segment_append bytes 14 8 4, segment_append bytes 14 12 2,
    segment_append bytes 14 14 2, segment_append bytes 14 16 4, segment_append bytes 14 20 4,
    segment_append bytes 14 24 4, segment_append bytes 14 28 4, segment_append bytes 14 32 4,
    segment_append bytes 14 36 4]

theorem writeHeaders_table (bytes : List Byte) (h : 54 ≤ bytes.length) :
    writeHeaders { file_header := tableFileHeader bytes, info_header := tableInfoHeader bytes }
      = bytes.take 54 := by
  simp only [writeHeaders]
  rw [writeFileHeader_table bytes (by omega), writeInfoHeader_table bytes h]
  have := segment_append bytes 0 14 40
  rw [List.drop_zero] at this
  exact this

/-- C15. Decoding keeps all the information of the 54 header bytes.  For an input of at least
54 bytes on which the constructor succeeds, writing the decoded fields back in table order as
little-endian integers of widths 2, 4, 2, 2, 4 and 4, 4, 4, 2, 2, 4, 4, 4, 4, 4, 4 (`width`
and `height` in two's complement) gives the first 54 bytes of the input, the input itself
when it has exactly 54 bytes.  The widths sum to 14 and 40, the sizes of the two packed
structs, and two such inputs that differ within their first 54 bytes decode to different
records. -/
theorem C15_header_round_trip (fs : FileSystem) (path : String) (self : RawBitmap)
    (bytes : List Byte) (b : Bitmap) (hopen : fs path = some bytes)
    (hlen : 54 ≤ bytes.length) (hok : Bitmap.ctor fs path self = .ok b) :
    writeHeaders b = bytes.take 54 ∧
    (bytes.length = 54 → writeHeaders b = bytes) ∧
    writeFileHeader b.file_header = bytes.take 14 ∧
    writeInfoHeader b.info_header = (bytes.drop 14).take 40 ∧
    (writeFileHeader b.file_header).length = sizeof_BITMAP_FILE_HEADER ∧
    (writeInfoHeader b.info_header).length = sizeof_BITMAP_INFO_HEADER ∧
    sizeof_BITMAP_FILE_HEADER = 14 ∧ sizeof_BITMAP_INFO_HEADER = 40 ∧
    (∀ (fs2 : FileSystem) (path2 : String) (self2 : RawBitmap) (bytes2 : List Byte)
        (b2 : Bitmap),
      fs2 path2 = some bytes2 → 54 ≤ bytes2.length → Bitmap.ctor fs2 path2 self2 = .ok b2 →
      bytes.take 54 ≠ bytes2.take 54 → b ≠ b2) := by
  have hb := ctor_full_ok fs path self bytes b hopen hlen hok
  have hw : writeHeaders b = bytes.take 54 := by
    rw [hb]
    exact writeHeaders_table bytes hlen
  refine ⟨hw, ?_, ?_, ?_, ?_, ?_, rfl, rfl, ?_⟩
  · intro h54
    rw [hw, List.take_of_length_le (by omega)]
  · rw [hb]
    exact writeFileHeader_table bytes (by omega)
  · rw [hb]
    exact writeInfoHeader_table bytes hlen
  · simp [writeFileHeader, leBytes_length, sizeof_BITMAP_FILE_HEADER]
  · simp [writeInfoHeader, leBytes_length, sizeof_BITMAP_INFO_HEADER]
  · intro fs2 path2 self2 bytes2 b2 hopen2 hlen2 hok2 hne heq
    apply hne
    have hb2 := ctor_full_ok fs2 path2 self2 bytes2 b2 hopen2 hlen2 hok2
    rw [← hw, heq, hb2]
    exact writeHeaders_table bytes2 hlen2

/-- Witness for C15: the 54-byte sample, written back from the constructed `Bitmap`, and told
apart from the sample with other reserved fields. -/
theorem C15_header_round_trip_witness :
    writeHeaders
        { file_header := tableFileHeader sample54, info_header := tableInfoHeader sample54 } =
      sample54 ∧
    ({ file_header := tableFileHeader sample54, info_header := tableInfoHeader sample54 }
        : Bitmap) ≠
      { file_header := tableFileHeader reserved54, info_header := tableInfoHeader reserved54 } :=
  have h := C15_header_round_trip (onlyFile sample54) "sample.bmp" zeroStorage sample54
    { file_header := tableFileHeader sample54, info_header := tableInfoHeader sample54 }
    rfl (by decide) (by decide)
  ⟨h.2.1 (by decide),
   h.2.2.2.2.2.2.2.2 (onlyFile reserved54) "other.bmp" onesStorage reserved54
     { file_header := tableFileHeader reserved54, info_header := tableInfoHeader reserved54 }
     rfl (by decide) (by decide) (by decide)⟩

end BitmapReader
